import Mathlib

/-!
Shallow embedding of `src/server/src/ytdlp.rs` (module `ytdlp` of the
`server` crate): the job registry (`DashMap<Url, Download>`), the
download supervisor `YtdlpClient::download_from_options`, the control
operations `cancel_download` / `pause_download`, the availability
precheck `check_url_availability`, the filename resolution
`get_filename`, the cancellation cleanup loop, and the progress-line
regex `YTDLP_DOWNLOAD_UPDATE_REGEX` together with its capture
extraction.

External effects (process spawn, child exit, signal reception, the
dry-run output, the download directory listing) are supplied by an
explicit environment record; machine state (the registry map, the set
of files in the download directory) is threaded explicitly.
-/

namespace Ytdlp

/-- The `Status` enum of `ytdlp.rs` (lines 63-71). -/
inductive Status where
  | Canceled
  | Checking
  | Completed
  | Failed
  | None
  | Paused
  | Running
deriving DecidableEq, Repr

/-- The `Signal` enum of `ytdlp.rs` (lines 74-77). -/
inductive Signal where
  | Cancel
  | Pause
deriving DecidableEq, Repr

/-- The `Error` enum of `ytdlp.rs` (lines 21-29).  The payload of
`General { err: std::io::Error }` is dropped: no claim inspects it. -/
inductive Error where
  | DownloadAlreadyPresent
  | FailedCheck
  | FailedToComplete
  | FailedToHalt
  | FailedToStart
  | NotDownloading
  | General
deriving DecidableEq, Repr

/-- The `DownloadOptions` struct of `ytdlp.rs` (lines 46-50). -/
structure DownloadOptions where
  container : String
  name_format : String
  quality : String
deriving DecidableEq, Repr

/-- The `Download` struct of `ytdlp.rs` (lines 39-43).  The field
`tx : Option<Sender<Signal>>` is modelled by its presence: `tx = true`
iff the record holds a control-signal sender. -/
structure Download where
  options : DownloadOptions
  status : Status
  tx : Bool
deriving DecidableEq, Repr

/-- The registry `downloads : DashMap<Url, Download>`, modelled as an
association list keyed by the URL string (keys are kept unique by the
operations below). -/
abbrev Registry := List (String × Download)

/-- Map lookup (`DashMap::get` / the value returned by `remove`). -/
def lookupReg : Registry → String → Option Download
  | [], _ => none
  | (k, d) :: t, url => if k = url then some d else lookupReg t url

/-- Removal of a key (the map after `DashMap::remove`). -/
def eraseReg : Registry → String → Registry
  | [], _ => []
  | (k, d) :: t, url => if k = url then eraseReg t url else (k, d) :: eraseReg t url

/-- `DashMap::insert`: replaces any record under the key. -/
def insertReg (reg : Registry) (url : String) (d : Download) : Registry :=
  (url, d) :: eraseReg reg url

/-- `DashMap::remove`: the remaining map together with the removed
record, if any. -/
def removeReg (reg : Registry) (url : String) : Registry × Option Download :=
  (eraseReg reg url, lookupReg reg url)

/-- `YtdlpClient::cancel_download` (lines 313-338): removes the record;
if it was `Running` with a sender present, sends `Cancel` (outcome given
by `sendOk`); on success re-inserts the record as `Canceled` with the
sender cleared and returns `Canceled`; a failed send yields
`FailedToHalt`; any other removed record — and an absent key — yields
`NotDownloading`.  On every error path the removed record is not
re-inserted. -/
def cancel_download (sendOk : Bool) (reg : Registry) (url : String) :
    Registry × Except Error Status :=
  let removed := removeReg reg url
  match removed.2 with
  | some d =>
    match d.status, d.tx with
    | Status.Running, true =>
      if sendOk then
        (insertReg removed.1 url ⟨d.options, Status.Canceled, false⟩,
         Except.ok Status.Canceled)
      else (removed.1, Except.error Error.FailedToHalt)
    | _, _ => (removed.1, Except.error Error.NotDownloading)
  | none => (removed.1, Except.error Error.NotDownloading)

/-- `YtdlpClient::pause_download` (lines 340-365): identical shape to
`cancel_download` with `Pause` / `Paused`. -/
def pause_download (sendOk : Bool) (reg : Registry) (url : String) :
    Registry × Except Error Status :=
  let removed := removeReg reg url
  match removed.2 with
  | some d =>
    match d.status, d.tx with
    | Status.Running, true =>
      if sendOk then
        (insertReg removed.1 url ⟨d.options, Status.Paused, false⟩,
         Except.ok Status.Paused)
      else (removed.1, Except.error Error.FailedToHalt)
    | _, _ => (removed.1, Except.error Error.NotDownloading)
  | none => (removed.1, Except.error Error.NotDownloading)

/-- `YtdlpClient::check_url_availability` (lines 370-390).  `statusRes`
is the outcome of `Command::status().await`: `some b` for `Ok` with
`success() = b`, `none` for `Err`. -/
def check_url_availability (statusRes : Option Bool) : Except Error Unit :=
  match statusRes with
  | some true => Except.ok ()
  | some false => Except.error Error.FailedCheck
  | none => Except.error Error.General

/-- `YtdlpClient::get_filename` (lines 392-415).  `outputRes` is the
outcome of `Command::output().await`: `some (b, ls)` for `Ok` with
`success() = b` and stdout lines `ls`, `none` for `Err`.  On a
successful exit the function folds the stdout lines into `last_line`
(initialised to the empty string) and returns it; otherwise `None`. -/
def get_filename (outputRes : Option (Bool × List String)) : Option String :=
  match outputRes with
  | some (true, lines) => some (lines.foldl (fun _ l => l) "")
  | some (false, _) => none
  | none => none

/-- `needle.leadsWith hay`: the first list is a leading segment of the
second (character-wise equality), the building block of Rust's
`str::contains`. -/
def leadsWith : List Char → List Char → Bool
  | [], _ => true
  | _ :: _, [] => false
  | n :: ns, h :: hs => if n = h then leadsWith ns hs else false

/-- Substring occurrence on character lists (needle first). -/
def subListAt : List Char → List Char → Bool
  | needle, [] => leadsWith needle []
  | needle, h :: hs => leadsWith needle (h :: hs) || subListAt needle hs

/-- Rust's `hay.contains(needle)` substring test.  Note
`strContains hay "" = true` for every `hay`. -/
def strContains (hay needle : String) : Bool :=
  subListAt needle.data hay.data

/-- The cleanup section of the supervisor loop (lines 211-240): on
`Cancel`, when the filename resolution produced `some name`, every
directory entry whose name contains `name` as a substring is removed
(`fs::remove_file`, errors ignored) and every other entry is kept; when
the resolution produced `none`, and on `Pause`, no file is touched.
Returns the directory contents after cleanup. -/
def applyCleanup (sig : Signal) (resolved : Option String)
    (files : List String) : List String :=
  match sig with
  | Signal.Cancel =>
    match resolved with
    | some name => files.filter (fun f => !(strContains f name))
    | none => files
  | Signal.Pause => files

/-- The terminal-status computation bound to `status` in
`download_from_options` (lines 273-285): `child.wait()` outcome
(`waitOk`, and `exitSuccess` when it returned `Ok`), combined with the
signal consumed in the loop, if any. -/
def computeTerminalStatus (waitOk exitSuccess : Bool)
    (received : Option Signal) : Status :=
  if waitOk then
    if exitSuccess then Status.Completed
    else
      match received with
      | some Signal.Cancel => Status.Canceled
      | some Signal.Pause => Status.Paused
      | none => Status.Failed
  else Status.Failed

/-- Observable external calls made by `download_from_options`, used to
state which operations a run performs and in which order. -/
inductive Event where
  | regInsert : String → Status → Event
  | precheckCall : String → Event
  | spawnCall : String → Event
deriving DecidableEq, Repr

/-- Outcome of a run: the returned `Result<Status>`, or an abort of the
whole task (`unwrap` / `todo!` panicking). -/
inductive Outcome where
  | ok : Status → Outcome
  | err : Error → Outcome
  | panicked : Outcome
deriving DecidableEq, Repr

/-- The external world as observed by one run of
`download_from_options`: whether `Command::spawn` succeeds, the signal
consumed in the read loop (if any), the outcome of the final
`child.wait()`, and the filename produced by the `get_filename` dry run
(consulted only on `Cancel`). -/
structure DownloadEnv where
  spawnOk : Bool
  recvSignal : Option Signal
  waitOk : Bool
  exitSuccess : Bool
  resolvedName : Option String
deriving DecidableEq, Repr

/-- Result of one run of `download_from_options`: final registry, final
download-directory contents, the external calls performed, and the
returned value. -/
structure RunResult where
  registry : Registry
  dirFiles : List String
  events : List Event
  result : Outcome
deriving DecidableEq, Repr

/-- `YtdlpClient::download_from_options` (lines 135-288):

* inserts `Download { status: Running, options, tx: Some(..) }` into the
  registry unconditionally (lines 144-151) — there is no duplicate
  check and no call to `check_url_availability`;
* spawns the downloader; `spawn().unwrap()` (line 164) aborts the task
  if the spawn fails;
* the read loop consumes at most one signal; on `Cancel` it resolves
  the output filename and applies the cleanup, on `Pause` it touches
  nothing (lines 211-240);
* after the loop it computes the terminal status from the exit and the
  consumed signal (lines 273-285), binds it to `status`, and then
  returns `Ok(Status::Completed)` (line 287), leaving the computed
  status unused. -/
def download_from_options (env : DownloadEnv) (reg : Registry)
    (url : String) (options : DownloadOptions)
    (dirFiles : List String) : RunResult :=
  let reg1 := insertReg reg url ⟨options, Status.Running, true⟩
  if env.spawnOk then
    let dirFiles1 :=
      match env.recvSignal with
      | some sig => applyCleanup sig env.resolvedName dirFiles
      | none => dirFiles
    let _status := computeTerminalStatus env.waitOk env.exitSuccess env.recvSignal
    { registry := reg1
      dirFiles := dirFiles1
      events := [Event.regInsert url Status.Running, Event.spawnCall url]
      result := Outcome.ok Status.Completed }
  else
    { registry := reg1
      dirFiles := dirFiles
      events := [Event.regInsert url Status.Running, Event.spawnCall url]
      result := Outcome.panicked }

/-- A concrete options record (the crate's serde defaults). -/
def opts0 : DownloadOptions :=
  ⟨"mp4", "%(title)s.%(ext)s", "best"⟩

/-- A second concrete options record. -/
def opts1 : DownloadOptions :=
  ⟨"mkv", "video.%(ext)s", "worst"⟩

/- Registry lemmas. -/

theorem lookupReg_eraseReg (reg : Registry) (url : String) :
    lookupReg (eraseReg reg url) url = none := by
  induction reg with
  | nil => rfl
  | cons p t ih =>
    obtain ⟨k, d⟩ := p
    by_cases h : k = url
    · simpa [eraseReg, h] using ih
    · simpa [eraseReg, lookupReg, h] using ih

theorem lookupReg_insertReg (reg : Registry) (url : String) (d : Download) :
    lookupReg (insertReg reg url d) url = some d := by
  simp [insertReg, lookupReg]

/-!
The progress-line pattern `YTDLP_DOWNLOAD_UPDATE_REGEX` (line 15):

  \[download\]\s+(\d+(?:\.\d+)?)%\s+of\s+~?\s+?(\d+(?:\.\d+)?[GMK]iB)
  \s+at\s+(\d+\.\d+(?:[GMK]i)?B\/s)\s+ETA\s+((\d+:\d+)|(?:Unknown))

embedded as a pattern datatype with the Rust regex crate's
leftmost-first (preference-order) match semantics: alternation prefers
its left branch, `?` and greedy `+` prefer consuming more, lazy `+?`
prefers consuming less, and the reported match is the
highest-preference match at the leftmost matching start position.
-/

/-- Capture bindings: group index paired with the consumed characters. -/
abbrev Groups := List (Nat × List Char)

/-- Pattern syntax: the fragment of regex syntax used by
`YTDLP_DOWNLOAD_UPDATE_REGEX`.  `+` quantifiers occur only over
single-character classes in the pattern, so they take a character
predicate directly. -/
inductive RE where
  | eps : RE
  | char : (Char → Bool) → RE
  | seq : RE → RE → RE
  | alt : RE → RE → RE
  | opt : RE → RE
  | plusGreedy : (Char → Bool) → RE
  | plusLazy : (Char → Bool) → RE
  | group : Nat → RE → RE

/-- Length of the maximal leading run of characters satisfying `p`. -/
def runLength (p : Char → Bool) : List Char → Nat
  | [] => 0
  | c :: cs => if p c then runLength p cs + 1 else 0

/-- Suffixes remaining after a greedy `p+` consumes k characters, in
preference order k = max, max-1, ..., 1. -/
def greedyRests (p : Char → Bool) (l : List Char) : List (List Char) :=
  let m := runLength p l
  (List.range m).map (fun i => l.drop (m - i))

/-- Suffixes remaining after a lazy `p+?` consumes k characters, in
preference order k = 1, 2, ..., max. -/
def lazyRests (p : Char → Bool) (l : List Char) : List (List Char) :=
  let m := runLength p l
  (List.range m).map (fun i => l.drop (i + 1))

/-- Concatenation of the images of `f` (preserves preference order). -/
def catMap (f : α → List β) : List α → List β
  | [] => []
  | a :: as => f a ++ catMap f as

/-- All ways the pattern can match a leading segment of the input, in
preference order: each result is the remaining input together with the
capture bindings. -/
def mrun : RE → List Char → List (List Char × Groups)
  | RE.eps, l => [(l, [])]
  | RE.char _, [] => []
  | RE.char p, c :: cs => if p c then [(cs, [])] else []
  | RE.seq a b, l =>
    catMap (fun r => (mrun b r.1).map (fun s => (s.1, r.2 ++ s.2))) (mrun a l)
  | RE.alt a b, l => mrun a l ++ mrun b l
  | RE.opt a, l => mrun a l ++ [(l, [])]
  | RE.plusGreedy p, l => (greedyRests p l).map (fun r => (r, []))
  | RE.plusLazy p, l => (lazyRests p l).map (fun r => (r, []))
  | RE.group n a, l =>
    (mrun a l).map (fun r => (r.1, (n, l.take (l.length - r.1.length)) :: r.2))

/-- Unanchored search (`Regex::captures`): the highest-preference match
at the leftmost start position, returning its capture bindings. -/
def searchFrom (re : RE) : List Char → Option Groups
  | [] => ((mrun re []).head?).map (fun r => r.2)
  | c :: cs =>
    match (mrun re (c :: cs)).head? with
    | some r => some r.2
    | none => searchFrom re cs

/-- `&captures[n]`: the text of capture group `n`.  Every group read by
the code (1-4) participates in every match of this pattern, so the
empty-string default is never reached on a successful search. -/
def capture (g : Groups) (n : Nat) : String :=
  match g.find? (fun q => q.1 = n) with
  | some q => String.mk q.2
  | none => ""

/-- `\d` (the pattern applies it to ASCII digits only). -/
def isDigitCh (c : Char) : Bool := c.isDigit

/-- `\s` (the inputs at issue contain only ASCII whitespace). -/
def isWsCh (c : Char) : Bool :=
  c = ' ' || c = '\t' || c = '\n' || c = '\r' || c = '\x0b' || c = '\x0c'

/-- A literal character sequence. -/
def litRE (s : String) : RE :=
  s.data.foldr (fun c acc => RE.seq (RE.char (fun x => x = c)) acc) RE.eps

/-- `\d+(?:\.\d+)?` — an integer or decimal number. -/
def numRE : RE :=
  RE.seq (RE.plusGreedy isDigitCh)
    (RE.opt (RE.seq (RE.char (fun x => x = '.')) (RE.plusGreedy isDigitCh)))

/-- `[GMK]` — the binary-prefix letter. -/
def unitCh : RE := RE.char (fun c => c = 'G' || c = 'M' || c = 'K')

/-- The full `YTDLP_DOWNLOAD_UPDATE_REGEX` pattern. -/
def ytdlpRE : RE :=
  RE.seq (litRE "[download]") <|
  RE.seq (RE.plusGreedy isWsCh) <|
  RE.seq (RE.group 1 numRE) <|
  RE.seq (litRE "%") <|
  RE.seq (RE.plusGreedy isWsCh) <|
  RE.seq (litRE "of") <|
  RE.seq (RE.plusGreedy isWsCh) <|
  RE.seq (RE.opt (litRE "~")) <|
  RE.seq (RE.plusLazy isWsCh) <|
  RE.seq (RE.group 2 (RE.seq numRE (RE.seq unitCh (litRE "iB")))) <|
  RE.seq (RE.plusGreedy isWsCh) <|
  RE.seq (litRE "at") <|
  RE.seq (RE.plusGreedy isWsCh) <|
  RE.seq (RE.group 3
    (RE.seq (RE.plusGreedy isDigitCh) <|
     RE.seq (litRE ".") <|
     RE.seq (RE.plusGreedy isDigitCh) <|
     RE.seq (RE.opt (RE.seq unitCh (litRE "i"))) <|
     litRE "B/s")) <|
  RE.seq (RE.plusGreedy isWsCh) <|
  RE.seq (litRE "ETA") <|
  RE.seq (RE.plusGreedy isWsCh) <|
  RE.group 4
    (RE.alt
      (RE.group 5
        (RE.seq (RE.plusGreedy isDigitCh) <|
         RE.seq (litRE ":") <|
         RE.plusGreedy isDigitCh))
      (litRE "Unknown"))

/-- The fields extracted from a matching progress line (lines 249-252),
as stored into `DownloadProgress` (minus the URL, which is copied from
the request, not parsed). -/
structure ProgressFields where
  percent : String
  size_downloaded : String
  speed : String
  eta : String
deriving DecidableEq, Repr

/-- The progress parsing step of the supervisor loop (lines 246-252):
`regex.is_match` / `regex.captures` followed by reading capture groups
1-4.  Yields `none` exactly when the line does not match. -/
def parseProgressLine (line : String) : Option ProgressFields :=
  match searchFrom ytdlpRE line.data with
  | some g => some ⟨capture g 1, capture g 2, capture g 3, capture g 4⟩
  | none => none

/-! Helper lemmas shared by the claim theorems. -/

/-- The empty needle occurs in every string (`hay.contains("")` holds in
Rust as well). -/
theorem strContains_empty (f : String) : strContains f "" = true := by
  obtain ⟨l⟩ := f
  show subListAt ([] : List Char) l = true
  cases l <;> simp [subListAt, leadsWith]

/-- Filtering out the files containing the empty string keeps nothing. -/
theorem filter_not_contains_empty (files : List String) :
    files.filter (fun f => !(strContains f "")) = [] := by
  induction files with
  | nil => rfl
  | cons a t ih => simp [List.filter_cons, strContains_empty, ih]

/-- A removed record that is not `Running`-with-sender makes
`cancel_download` take the `NotDownloading` arm, leaving the record
removed. -/
theorem cancel_download_not_active (reg : Registry) (url : String)
    (o : DownloadOptions) (st : Status) (tx : Bool) (sOk : Bool)
    (hd : lookupReg reg url = some ⟨o, st, tx⟩)
    (hne : ¬(st = Status.Running ∧ tx = true)) :
    cancel_download sOk reg url =
      (eraseReg reg url, Except.error Error.NotDownloading) := by
  cases st <;> cases tx <;> simp_all [cancel_download, removeReg]

/-- Same fact for `pause_download`. -/
theorem pause_download_not_active (reg : Registry) (url : String)
    (o : DownloadOptions) (st : Status) (tx : Bool) (sOk : Bool)
    (hd : lookupReg reg url = some ⟨o, st, tx⟩)
    (hne : ¬(st = Status.Running ∧ tx = true)) :
    pause_download sOk reg url =
      (eraseReg reg url, Except.error Error.NotDownloading) := by
  cases st <;> cases tx <;> simp_all [pause_download, removeReg]

/-! Claim theorems. -/

/-- Claim C1 (evaluation of the defect): for a run whose child exits
unsuccessfully with no signal consumed, the terminal-status computation
of lines 273-285 yields `Failed`, yet `download_from_options` returns
`Ok(Completed)`: line 287 returns `Status::Completed` unconditionally
and the computed status is discarded. -/
theorem download_returns_completed_discarding_terminal_status :
    computeTerminalStatus true false none = Status.Failed ∧
    (download_from_options ⟨true, none, true, false, none⟩ [] "u" opts0 []).result =
      Outcome.ok Status.Completed ∧
    (download_from_options ⟨true, none, true, false, none⟩ [] "u" opts0 []).result ≠
      Outcome.ok (computeTerminalStatus true false none) := by
  decide

/-- Claim C2 (evaluation of the defect): `check_url_availability` does
report `FailedCheck` on an unsuccessful dry-run exit, but a run of
`download_from_options` performs no precheck call at all — its external
calls are exactly the `Running` registry insert followed by the spawn —
and it leaves the job's record at status `Running`, so a job whose
precheck would fail still reaches `Running`. -/
theorem download_marks_running_without_precheck :
    check_url_availability (some false) = Except.error Error.FailedCheck ∧
    (download_from_options ⟨true, none, true, false, none⟩ [] "u" opts0 []).events =
      [Event.regInsert "u" Status.Running, Event.spawnCall "u"] ∧
    lookupReg
      (download_from_options ⟨true, none, true, false, none⟩ [] "u" opts0 []).registry
      "u" = some ⟨opts0, Status.Running, true⟩ :=
  ⟨rfl, by decide, by decide⟩

/-- Claim C3 (evaluation of the defect): submitting a URL whose record
is already `Running` does not fail with `DownloadAlreadyPresent`; the
run overwrites the existing record with a fresh `Running` record
carrying the new options and proceeds. -/
theorem submission_overwrites_running_record :
    (download_from_options ⟨true, none, true, true, none⟩
        [("u", ⟨opts0, Status.Running, true⟩)] "u" opts1 []).result ≠
      Outcome.err Error.DownloadAlreadyPresent ∧
    (download_from_options ⟨true, none, true, true, none⟩
        [("u", ⟨opts0, Status.Running, true⟩)] "u" opts1 []).result =
      Outcome.ok Status.Completed ∧
    lookupReg
      (download_from_options ⟨true, none, true, true, none⟩
        [("u", ⟨opts0, Status.Running, true⟩)] "u" opts1 []).registry
      "u" = some ⟨opts1, Status.Running, true⟩ := by
  decide

/-- Claim C4: when the record under `url` is `Running` with a sender
present and the signal send succeeds, `cancel_download` returns
`Canceled`, re-inserts the record as `Canceled` with the sender
cleared, and a second `cancel_download` on the same key (whatever its
send would do) fails with `NotDownloading`. -/
theorem cancel_running_then_cancel_again (reg : Registry) (url : String)
    (o : DownloadOptions) (s2 : Bool)
    (hd : lookupReg reg url = some ⟨o, Status.Running, true⟩) :
    (cancel_download true reg url).2 = Except.ok Status.Canceled ∧
    lookupReg (cancel_download true reg url).1 url =
      some ⟨o, Status.Canceled, false⟩ ∧
    (cancel_download s2 (cancel_download true reg url).1 url).2 =
      Except.error Error.NotDownloading := by
  have h1 : cancel_download true reg url =
      (insertReg (eraseReg reg url) url ⟨o, Status.Canceled, false⟩,
       Except.ok Status.Canceled) := by
    simp [cancel_download, removeReg, hd]
  refine ⟨by rw [h1], by rw [h1]; exact lookupReg_insertReg _ _ _, ?_⟩
  rw [h1]
  simp [cancel_download, removeReg, lookupReg_insertReg]

/-- Claim C4 witness at a concrete registry. -/
theorem cancel_running_then_cancel_again_witness :
    (cancel_download true [("u", ⟨opts0, Status.Running, true⟩)] "u").2 =
      Except.ok Status.Canceled ∧
    lookupReg (cancel_download true [("u", ⟨opts0, Status.Running, true⟩)] "u").1 "u" =
      some ⟨opts0, Status.Canceled, false⟩ ∧
    (cancel_download true
      (cancel_download true [("u", ⟨opts0, Status.Running, true⟩)] "u").1 "u").2 =
      Except.error Error.NotDownloading :=
  cancel_running_then_cancel_again [("u", ⟨opts0, Status.Running, true⟩)] "u"
    opts0 true (by decide)

/-- Claim C5 (evaluation of the defect): when the spawn of the
downloader fails, the run aborts the whole task (`spawn().unwrap()` at
line 164 panicking) instead of returning the error value
`FailedToStart`, which is declared but never produced. -/
theorem spawn_failure_aborts_without_failed_to_start :
    (download_from_options ⟨false, none, true, true, none⟩ [] "u" opts0 []).result =
      Outcome.panicked ∧
    (download_from_options ⟨false, none, true, true, none⟩ [] "u" opts0 []).result ≠
      Outcome.err Error.FailedToStart := by
  decide

/-- Claim C6: on a run that consumed `Cancel` and resolved the output
filename to `n`, every download-directory entry containing `n` as a
substring is deleted and every other entry survives; on a run that
consumed `Pause`, the directory is left exactly as it was. -/
theorem cancel_deletes_matching_pause_deletes_nothing (env : DownloadEnv)
    (reg : Registry) (url : String) (o : DownloadOptions)
    (files : List String) (n : String) (hspawn : env.spawnOk = true) :
    (env.recvSignal = some Signal.Cancel → env.resolvedName = some n →
      (∀ f ∈ files, strContains f n = true →
        f ∉ (download_from_options env reg url o files).dirFiles) ∧
      (∀ f ∈ files, strContains f n = false →
        f ∈ (download_from_options env reg url o files).dirFiles)) ∧
    (env.recvSignal = some Signal.Pause →
      (download_from_options env reg url o files).dirFiles = files) := by
  constructor
  · intro hc hr
    have hfiles : (download_from_options env reg url o files).dirFiles =
        files.filter (fun f => !(strContains f n)) := by
      simp [download_from_options, hspawn, hc, hr, applyCleanup]
    rw [hfiles]
    constructor
    · intro f hf hcont
      simp [List.mem_filter, hcont]
    · intro f hf hcont
      simp [List.mem_filter, hf, hcont]
  · intro hp
    simp [download_from_options, hspawn, hp, applyCleanup]

/-- Claim C6 witness: a canceled run with resolved name `"vid"` deletes
`"vid.mp4"` and keeps `"notes.txt"`; a paused run deletes nothing. -/
theorem cancel_deletes_matching_pause_deletes_nothing_witness :
    "vid.mp4" ∉ (download_from_options
        ⟨true, some Signal.Cancel, true, false, some "vid"⟩
        [] "u" opts0 ["vid.mp4", "notes.txt"]).dirFiles ∧
    "notes.txt" ∈ (download_from_options
        ⟨true, some Signal.Cancel, true, false, some "vid"⟩
        [] "u" opts0 ["vid.mp4", "notes.txt"]).dirFiles ∧
    (download_from_options
        ⟨true, some Signal.Pause, true, false, some "vid"⟩
        [] "u" opts0 ["vid.mp4", "notes.txt"]).dirFiles =
      ["vid.mp4", "notes.txt"] := by
  have T := cancel_deletes_matching_pause_deletes_nothing
    ⟨true, some Signal.Cancel, true, false, some "vid"⟩
    [] "u" opts0 ["vid.mp4", "notes.txt"] "vid" rfl
  have P := cancel_deletes_matching_pause_deletes_nothing
    ⟨true, some Signal.Pause, true, false, some "vid"⟩
    [] "u" opts0 ["vid.mp4", "notes.txt"] "vid" rfl
  exact ⟨(T.1 rfl rfl).1 "vid.mp4" (by decide) (by decide),
         (T.1 rfl rfl).2 "notes.txt" (by decide) (by decide),
         P.2 rfl⟩

/-- Claim C7 counterexample: the spec's line, with a single space
between `of` and the size, does not match the pattern at all (after
`of` the pattern `\s+~?\s+?` needs at least two whitespace characters
when no `~` is present), so no record — in particular none with
`eta = "Unknown"` — is produced. -/
theorem progress_single_space_line_no_match :
    parseProgressLine "[download] 100% of 5.00MiB at 900.00KiB/s ETA Unknown" =
      none := by
  decide

/-- Claim C7 as amended: with two spaces between `of` and the size the
line matches and the parsed record's `eta` field is the literal string
`"Unknown"`. -/
theorem progress_double_space_line_eta_unknown :
    parseProgressLine "[download] 100% of  5.00MiB at 900.00KiB/s ETA Unknown" =
      some ⟨"100", "5.00MiB", "900.00KiB/s", "Unknown"⟩ := by
  decide

/-- Claim C8: the tilde line parses to exactly the claimed fields. -/
theorem progress_tilde_line_parses :
    parseProgressLine "[download] 12.3% of ~ 10.00MiB at 1.20MiB/s ETA 00:05" =
      some ⟨"12.3", "10.00MiB", "1.20MiB/s", "00:05"⟩ := by
  decide

/-- Claim C9: on every error path of `cancel_download` and
`pause_download` for a key whose record exists — `NotDownloading`
because the record is not `Running`-with-sender, or `FailedToHalt`
because the send fails — the record has been removed from the registry
and is not restored. -/
theorem signal_error_paths_remove_record (reg : Registry) (url : String)
    (d : Download) (sOk : Bool) (hd : lookupReg reg url = some d) :
    (¬(d.status = Status.Running ∧ d.tx = true) →
      ((cancel_download sOk reg url).2 = Except.error Error.NotDownloading ∧
       lookupReg (cancel_download sOk reg url).1 url = none) ∧
      ((pause_download sOk reg url).2 = Except.error Error.NotDownloading ∧
       lookupReg (pause_download sOk reg url).1 url = none)) ∧
    (d.status = Status.Running → d.tx = true →
      ((cancel_download false reg url).2 = Except.error Error.FailedToHalt ∧
       lookupReg (cancel_download false reg url).1 url = none) ∧
      ((pause_download false reg url).2 = Except.error Error.FailedToHalt ∧
       lookupReg (pause_download false reg url).1 url = none)) := by
  obtain ⟨o, st, tx⟩ := d
  refine ⟨fun hne => ?_, fun hs ht => ?_⟩
  · have hc := cancel_download_not_active reg url o st tx sOk hd hne
    have hp := pause_download_not_active reg url o st tx sOk hd hne
    rw [hc, hp]
    exact ⟨⟨rfl, lookupReg_eraseReg reg url⟩, rfl, lookupReg_eraseReg reg url⟩
  · have hs' : st = Status.Running := hs
    have ht' : tx = true := ht
    subst hs'
    subst ht'
    have hc : cancel_download false reg url =
        (eraseReg reg url, Except.error Error.FailedToHalt) := by
      simp [cancel_download, removeReg, hd]
    have hp : pause_download false reg url =
        (eraseReg reg url, Except.error Error.FailedToHalt) := by
      simp [pause_download, removeReg, hd]
    rw [hc, hp]
    exact ⟨⟨rfl, lookupReg_eraseReg reg url⟩, rfl, lookupReg_eraseReg reg url⟩

/-- Claim C9 witness: a `NotDownloading` failure on a `Paused` record
and a `FailedToHalt` failure on a `Running` record both leave the key
absent from the registry. -/
theorem signal_error_paths_remove_record_witness :
    ((cancel_download true [("u", ⟨opts0, Status.Paused, false⟩)] "u").2 =
       Except.error Error.NotDownloading ∧
     lookupReg (cancel_download true [("u", ⟨opts0, Status.Paused, false⟩)] "u").1 "u" =
       none) ∧
    ((pause_download false [("v", ⟨opts0, Status.Running, true⟩)] "v").2 =
       Except.error Error.FailedToHalt ∧
     lookupReg (pause_download false [("v", ⟨opts0, Status.Running, true⟩)] "v").1 "v" =
       none) := by
  have T1 := signal_error_paths_remove_record
    [("u", ⟨opts0, Status.Paused, false⟩)] "u" ⟨opts0, Status.Paused, false⟩
    true (by decide)
  have T2 := signal_error_paths_remove_record
    [("v", ⟨opts0, Status.Running, true⟩)] "v" ⟨opts0, Status.Running, true⟩
    false (by decide)
  exact ⟨(T1.1 (by decide)).1, (T2.2 rfl rfl).2⟩

/-- Claim C10: a dry run that exits successfully with no stdout lines
makes `get_filename` return `Some("")`, and a canceled run that
resolved that empty filename deletes every file in the download
directory, because every name contains the empty string. -/
theorem empty_dry_run_resolves_empty_and_cancels_everything :
    get_filename (some (true, [])) = some "" ∧
    ∀ files : List String,
      (download_from_options
          ⟨true, some Signal.Cancel, true, false, get_filename (some (true, []))⟩
          [] "u" opts0 files).dirFiles = [] := by
  refine ⟨rfl, fun files => ?_⟩
  simp [download_from_options, applyCleanup, get_filename,
    filter_not_contains_empty]

end Ytdlp
